import Mathlib

/-!
Verification of the robotic-arm simulator core against its specification.

The embedding below translates the TypeScript sources:
  * `src/utils/kinematics.ts`  — the inverse-kinematics solver `solveIK`;
  * `src/unnamed/part_002` / `part_003` — the `RobotArm` kinematic chain,
    from which the forward-kinematics map `fk` is read off;
  * `src/unnamed/part_000` — the single-block controller page (its `lerp`,
    `startAutoSequence`, telemetry buffer of capacity 50);
  * `src/unnamed/part_001` — the two-block controller page with teach/replay
    (its per-frame loop, gripper logic, telemetry buffer of capacity 40).

JavaScript numbers that can become NaN (or infinite) are modelled as
`Option ℝ`, with `none` standing for "not a well-defined finite real".
Every other JS number is modelled as a real number.
-/

open Real

namespace RobotSim

/-- A 3D vector, modelling `THREE.Vector3`. -/
structure V3 where
  x : ℝ
  y : ℝ
  z : ℝ

/-- Componentwise subtraction, `new THREE.Vector3().subVectors(a, b)`. -/
def vsub (a b : V3) : V3 := ⟨a.x - b.x, a.y - b.y, a.z - b.z⟩

/-- Componentwise addition, `v.clone().add(w)`. -/
def vadd (a b : V3) : V3 := ⟨a.x + b.x, a.y + b.y, a.z + b.z⟩

/-- Scalar multiplication, `v.multiplyScalar(c)`. -/
def smul (c : ℝ) (a : V3) : V3 := ⟨c * a.x, c * a.y, c * a.z⟩

/-- Euclidean length of a vector, `v.length()`. -/
noncomputable def vlen (a : V3) : ℝ := Real.sqrt (a.x * a.x + a.y * a.y + a.z * a.z)

/-- Distance between two points, `a.distanceTo(b)`. -/
noncomputable def vdist (a b : V3) : ℝ := vlen (vsub a b)

/-- Normalisation as implemented by three.js: `divideScalar(length() || 1)`.
A zero vector has length `0`, so it is divided by `1` and returned unchanged;
this is exactly the `l = 0` branch below (the vector is then `(0,0,0)`). -/
noncomputable def vnormalize (a : V3) : V3 :=
  if vlen a = 0 then a else ⟨a.x / vlen a, a.y / vlen a, a.z / vlen a⟩

/-- Joint angles of the arm, all well-defined reals: `{ base, shoulder, elbow }`. -/
structure JointAngles where
  base : ℝ
  shoulder : ℝ
  elbow : ℝ

/-- Joint angles as produced by the JS solver, where the `shoulder` and `elbow`
components are computed through `Math.acos` and may be NaN (`none`).
`base` comes from `Math.atan2`, which is total on real inputs. -/
structure JointAnglesJS where
  base : ℝ
  shoulder : Option ℝ
  elbow : Option ℝ

/-- Robot dimensions from `kinematics.ts`: base height. -/
noncomputable def L1 : ℝ := 1

/-- Robot dimensions from `kinematics.ts`: upper-arm length. -/
noncomputable def L2 : ℝ := 3

/-- Robot dimensions from `kinematics.ts`: forearm length. -/
noncomputable def L3 : ℝ := 2.5

/-- `Math.atan2 y x`: the argument of the point `(x, y)`, in `(-π, π]`, with
`atan2 0 0 = 0`.  This is exactly `Complex.arg` of `x + y·i`. -/
noncomputable def atan2 (y x : ℝ) : ℝ := Complex.arg ⟨x, y⟩

/-- `Math.acos t`: defined on `[-1, 1]`; outside that interval JS returns NaN,
modelled by `none`. -/
noncomputable def acosJS (t : ℝ) : Option ℝ :=
  if -1 ≤ t ∧ t ≤ 1 then some (Real.arccos t) else none

/-- `Math.acos (num / den)` as evaluated by JS.  When `den = 0`, the division
yields `±Infinity` (or NaN when `num = 0` as well) and `Math.acos` of that is
NaN, so the result is `none` in every `den = 0` case. -/
noncomputable def acosDiv (num den : ℝ) : Option ℝ :=
  if den = 0 then none else acosJS (num / den)

/-- Horizontal distance from the base centre to the target:
`r = Math.sqrt(x*x + z*z)` in `solveIK`. -/
noncomputable def rIK (x z : ℝ) : ℝ := Real.sqrt (x * x + z * z)

/-- Straight-line distance from the shoulder pivot to the target:
`h = Math.sqrt(r*r + dy*dy)` with `dy = y - L1` in `solveIK`. -/
noncomputable def hIK (x y z : ℝ) : ℝ :=
  Real.sqrt (rIK x z * rIK x z + (y - L1) * (y - L1))

/-- The inverse-kinematics solver `solveIK` from `src/utils/kinematics.ts`.
Returns `none` for the JS `null` (target out of reach); otherwise the angle
record, whose `shoulder`/`elbow` components are NaN (`none`) whenever the
law-of-cosines `acos` arguments fall outside `[-1, 1]` or their denominators
vanish. -/
noncomputable def solveIK (x y z : ℝ) : Option JointAnglesJS :=
  let theta1 := atan2 x z
  let dy := y - L1
  let h := hIK x y z
  if L2 + L3 < h then none
  else
    let phi1 := acosDiv (L2 * L2 + h * h - L3 * L3) (2 * L2 * h)
    let phi2 := atan2 dy (rIK x z)
    let phi3 := acosDiv (L2 * L2 + L3 * L3 - h * h) (2 * L2 * L3)
    some { base := theta1
           shoulder := Option.map (fun p1 => Real.pi / 2 - (p1 + phi2)) phi1
           elbow := Option.map (fun p3 => Real.pi - p3) phi3 }

/-- Forward kinematics of the `RobotArm` chain (`part_002`/`part_003`):
rotate by `base` about Y at the origin; go up `L1` (base height); rotate by
`shoulder` about X; go up the upper arm `L2`; rotate by `elbow` about X; go up
the forearm `L3` to the end effector.  Composing the three.js transforms gives
the closed form below. -/
noncomputable def fk (a : JointAngles) : V3 :=
  ⟨Real.sin a.base * (L2 * Real.sin a.shoulder + L3 * Real.sin (a.shoulder + a.elbow)),
   L1 + L2 * Real.cos a.shoulder + L3 * Real.cos (a.shoulder + a.elbow),
   Real.cos a.base * (L2 * Real.sin a.shoulder + L3 * Real.sin (a.shoulder + a.elbow))⟩

/-- Key property of `atan2`: scaling the unit vector `(cos (atan2 a b), sin (atan2 a b))`
by `sqrt (a² + b²)` recovers `(b, a)`.  Holds also at the origin. -/
lemma atan2_spec (a b : ℝ) :
    Real.sqrt (a ^ 2 + b ^ 2) * Real.sin (atan2 a b) = a ∧
    Real.sqrt (a ^ 2 + b ^ 2) * Real.cos (atan2 a b) = b := by
  by_cases hz : (⟨b, a⟩ : ℂ) = 0
  · have hb : b = 0 := congrArg Complex.re hz
    have ha : a = 0 := congrArg Complex.im hz
    subst ha; subst hb
    simp [atan2, Complex.arg_zero]
  · have habs : Complex.abs ⟨b, a⟩ = Real.sqrt (a ^ 2 + b ^ 2) := by
      rw [Complex.abs_apply, Complex.normSq_mk]
      ring_nf
    have habs0 : Complex.abs ⟨b, a⟩ ≠ 0 := by
      simpa using hz
    constructor
    · rw [atan2, Complex.sin_arg, ← habs]
      field_simp
    · rw [atan2, Complex.cos_arg hz, ← habs]
      field_simp

/-- The complex number `0 + 0i` is `0`. -/
lemma mk_zero_zero : (⟨0, 0⟩ : ℂ) = 0 := by
  simp [Complex.ext_iff]

/-- `Math.atan2(0, 0) = 0`. -/
lemma atan2_zero_zero : atan2 0 0 = 0 := by
  rw [atan2, mk_zero_zero, Complex.arg_zero]

/-- At the shoulder-pivot target `(0, 1, 0)` the solver distance `h` is `0`. -/
lemma hIK_shoulder_pivot : hIK 0 1 0 = 0 := by
  have hr : rIK 0 0 = 0 := by simp [rIK]
  simp [hIK, hr, L1]

/-- Evaluation of the solver at the degenerate shoulder-pivot target `(0, 1, 0)`:
the reach check passes (`0 ≤ L2 + L3`), the shoulder `acos` divides by zero and
the elbow `acos` argument is `15.25/15 > 1`, so both components are NaN. -/
lemma solveIK_shoulder_pivot : solveIK 0 1 0 = some ⟨0, none, none⟩ := by
  rw [solveIK]
  simp only [hIK_shoulder_pivot, atan2_zero_zero, L1, L2, L3]
  rw [if_neg (by norm_num)]
  have h1 : acosDiv (3 * 3 + 0 * 0 - 2.5 * 2.5) (2 * 3 * 0) = none := by
    simp [acosDiv]
  have h3 : acosDiv (3 * 3 + 2.5 * 2.5 - 0 * 0) (2 * 3 * 2.5) = none := by
    rw [acosDiv, if_neg (by norm_num), acosJS, if_neg (by norm_num)]
  rw [h1, h3]
  simp

/-- At the target `(0, 1, 0.2)` the solver distance `h` is `0.2`. -/
lemma hIK_near_pivot : hIK 0 1 0.2 = 0.2 := by
  have hr : rIK 0 0.2 = 0.2 := by
    rw [rIK, show (0 : ℝ) * 0 + 0.2 * 0.2 = 0.2 ^ 2 by norm_num,
      Real.sqrt_sq (by norm_num)]
  rw [hIK, hr, L1, show (0.2 : ℝ) * 0.2 + (1 - 1) * (1 - 1) = 0.2 ^ 2 by norm_num,
    Real.sqrt_sq (by norm_num)]

/-- Evaluation of the solver at `(0, 1, 0.2)`: the distance `h = 0.2` passes the
reach check but lies below `L2 - L3 = 0.5`, so both `acos` arguments exceed `1`
(`2.79/1.2` and `15.21/15`) and both angle components are NaN. -/
lemma solveIK_near_pivot : solveIK 0 1 0.2 = some ⟨atan2 0 0.2, none, none⟩ := by
  rw [solveIK]
  simp only [hIK_near_pivot, L1, L2, L3]
  rw [if_neg (by norm_num)]
  have h1 : acosDiv (3 * 3 + 0.2 * 0.2 - 2.5 * 2.5) (2 * 3 * 0.2) = none := by
    rw [acosDiv, if_neg (by norm_num), acosJS, if_neg (by norm_num)]
  have h3 : acosDiv (3 * 3 + 2.5 * 2.5 - 0.2 * 0.2) (2 * 3 * 2.5) = none := by
    rw [acosDiv, if_neg (by norm_num), acosJS, if_neg (by norm_num)]
  rw [h1, h3]
  simp

/-- Bounds for the shoulder law-of-cosines argument: for
`L2 - L3 ≤ h ≤ L2 + L3` the quotient `(L2² + h² - L3²)/(2·L2·h)` lies in `[-1, 1]`. -/
lemma c1_bounds (h : ℝ) (hlo : L2 - L3 ≤ h) (hhi : h ≤ L2 + L3) :
    -1 ≤ (L2 * L2 + h * h - L3 * L3) / (2 * L2 * h) ∧
      (L2 * L2 + h * h - L3 * L3) / (2 * L2 * h) ≤ 1 := by
  simp only [L2, L3] at hlo hhi ⊢
  have hpos : (0 : ℝ) < h := by linarith
  have hb1 : (0 : ℝ) ≤ h - (3 - 2.5) := by linarith
  have hb2 : (0 : ℝ) ≤ (3 + 2.5) - h := by linarith
  constructor
  · rw [le_div_iff₀ (by positivity)]
    nlinarith [mul_nonneg hb1 hb2]
  · rw [div_le_one (by positivity)]
    nlinarith [mul_nonneg hb1 hb2]

/-- Bounds for the elbow law-of-cosines argument: for
`L2 - L3 ≤ h ≤ L2 + L3` the quotient `(L2² + L3² - h²)/(2·L2·L3)` lies in `[-1, 1]`. -/
lemma c3_bounds (h : ℝ) (hlo : L2 - L3 ≤ h) (hhi : h ≤ L2 + L3) :
    -1 ≤ (L2 * L2 + L3 * L3 - h * h) / (2 * L2 * L3) ∧
      (L2 * L2 + L3 * L3 - h * h) / (2 * L2 * L3) ≤ 1 := by
  simp only [L2, L3] at hlo hhi ⊢
  have hpos : (0 : ℝ) < h := by linarith
  have hb1 : (0 : ℝ) ≤ h - (3 - 2.5) := by linarith
  have hb2 : (0 : ℝ) ≤ (3 + 2.5) - h := by linarith
  constructor
  · rw [le_div_iff₀ (by positivity)]
    nlinarith [mul_nonneg hb1 hb2, mul_nonneg hpos.le hb2]
  · rw [div_le_one (by positivity)]
    nlinarith [mul_nonneg hb1 hb2]

/-- Law-of-cosines key identities.  With `p1 = arccos ((L2²+h²-L3²)/(2 L2 h))`
and `p3 = arccos ((L2²+L3²-h²)/(2 L2 L3))` for an admissible `h`:
`h·sin p1 = L3·sin p3` (both equal twice the triangle area over `L2`) and
`L3·cos p3 + h·cos p1 = L2` (projection of the two links onto the base side). -/
lemma lawcos_key (h : ℝ) (hlo : L2 - L3 ≤ h) (hhi : h ≤ L2 + L3) :
    h * Real.sin (Real.arccos ((L2 * L2 + h * h - L3 * L3) / (2 * L2 * h))) =
      L3 * Real.sin (Real.arccos ((L2 * L2 + L3 * L3 - h * h) / (2 * L2 * L3))) ∧
    L3 * Real.cos (Real.arccos ((L2 * L2 + L3 * L3 - h * h) / (2 * L2 * L3))) +
      h * Real.cos (Real.arccos ((L2 * L2 + h * h - L3 * L3) / (2 * L2 * h))) = L2 := by
  obtain ⟨hg1, hl1⟩ := c1_bounds h hlo hhi
  obtain ⟨hg3, hl3⟩ := c3_bounds h hlo hhi
  have hpos : (0 : ℝ) < h := by
    simp only [L2, L3] at hlo; linarith
  have hne : h ≠ 0 := ne_of_gt hpos
  constructor
  · rw [Real.sin_arccos, Real.sin_arccos]
    have key : h ^ 2 * (1 - ((L2 * L2 + h * h - L3 * L3) / (2 * L2 * h)) ^ 2) =
        L3 ^ 2 * (1 - ((L2 * L2 + L3 * L3 - h * h) / (2 * L2 * L3)) ^ 2) := by
      simp only [L2, L3]
      field_simp
      ring
    calc h * Real.sqrt (1 - ((L2 * L2 + h * h - L3 * L3) / (2 * L2 * h)) ^ 2)
        = Real.sqrt (h ^ 2 * (1 - ((L2 * L2 + h * h - L3 * L3) / (2 * L2 * h)) ^ 2)) := by
          rw [Real.sqrt_mul (sq_nonneg h), Real.sqrt_sq hpos.le]
      _ = Real.sqrt (L3 ^ 2 * (1 - ((L2 * L2 + L3 * L3 - h * h) / (2 * L2 * L3)) ^ 2)) := by
          rw [key]
      _ = L3 * Real.sqrt (1 - ((L2 * L2 + L3 * L3 - h * h) / (2 * L2 * L3)) ^ 2) := by
          rw [Real.sqrt_mul (sq_nonneg L3), Real.sqrt_sq (by simp [L3]; norm_num)]
  · rw [Real.cos_arccos hg1 hl1, Real.cos_arccos hg3 hl3]
    simp only [L2, L3]
    field_simp
    ring

/-- Planar two-link assembly: from the two law-of-cosines identities, the
two-link chain placed at shoulder elevation `p1 + t` with interior elbow angle
`p3` lands at distance `h` in direction `t`. -/
lemma twolink_assembly (h p1 p3 t : ℝ)
    (e1 : h * Real.sin p1 = L3 * Real.sin p3)
    (e2 : L3 * Real.cos p3 + h * Real.cos p1 = L2) :
    L2 * Real.cos (p1 + t) - L3 * Real.cos (p1 + t + p3) = h * Real.cos t ∧
    L2 * Real.sin (p1 + t) - L3 * Real.sin (p1 + t + p3) = h * Real.sin t := by
  have pyth : Real.sin p1 ^ 2 + Real.cos p1 ^ 2 = 1 := Real.sin_sq_add_cos_sq p1
  constructor
  · simp only [Real.cos_add, Real.sin_add]
    linear_combination (Real.sin p1 * Real.sin t - Real.cos p1 * Real.cos t) * e2 +
      (-(Real.sin p1 * Real.cos t) - Real.cos p1 * Real.sin t) * e1 +
      h * Real.cos t * pyth
  · simp only [Real.cos_add, Real.sin_add]
    linear_combination (-(Real.cos p1 * Real.sin t) - Real.sin p1 * Real.cos t) * e2 +
      (Real.cos p1 * Real.cos t - Real.sin p1 * Real.sin t) * e1 +
      h * Real.sin t * pyth

/-- CLAIM C1 (amended): for every target whose distance `h` from the shoulder
pivot satisfies `L2 - L3 ≤ h ≤ L2 + L3`, `solveIK` returns fully defined joint
angles, and forward-evaluating the kinematic chain at those angles reproduces
the target exactly (the float "small numeric tolerance" becomes exact equality
in the real-number model). -/
theorem solveIK_reproduces_target (x y z : ℝ)
    (hlo : L2 - L3 ≤ hIK x y z) (hhi : hIK x y z ≤ L2 + L3) :
    ∃ a : JointAngles,
      solveIK x y z = some ⟨a.base, some a.shoulder, some a.elbow⟩ ∧
      fk a = ⟨x, y, z⟩ := by
  obtain ⟨hg1, hl1⟩ := c1_bounds (hIK x y z) hlo hhi
  obtain ⟨hg3, hl3⟩ := c3_bounds (hIK x y z) hlo hhi
  obtain ⟨e1, e2⟩ := lawcos_key (hIK x y z) hlo hhi
  have hpos : (0 : ℝ) < hIK x y z := by
    simp only [L2, L3] at hlo; linarith
  have hden1 : (2 * L2 * hIK x y z) ≠ 0 :=
    ne_of_gt (mul_pos (by simp only [L2]; norm_num) hpos)
  have hden3 : (2 * L2 * L3) ≠ 0 := by
    simp only [L2, L3]; norm_num
  set h := hIK x y z with hhdef
  set p1 := Real.arccos ((L2 * L2 + h * h - L3 * L3) / (2 * L2 * h)) with hp1def
  set p3 := Real.arccos ((L2 * L2 + L3 * L3 - h * h) / (2 * L2 * L3)) with hp3def
  set p2 := atan2 (y - L1) (rIK x z) with hp2def
  refine ⟨⟨atan2 x z, Real.pi / 2 - (p1 + p2), Real.pi - p3⟩, ?_, ?_⟩
  · rw [solveIK]
    simp only [← hhdef]
    rw [if_neg (not_lt.mpr hhi)]
    rw [acosDiv, if_neg hden1, acosJS, if_pos ⟨hg1, hl1⟩]
    rw [acosDiv, if_neg hden3, acosJS, if_pos ⟨hg3, hl3⟩]
    simp [← hp1def, ← hp3def, ← hp2def]
  · -- forward kinematics at the returned angles
    have hsinS : Real.sin (Real.pi / 2 - (p1 + p2)) = Real.cos (p1 + p2) :=
      Real.sin_pi_div_two_sub _
    have hcosS : Real.cos (Real.pi / 2 - (p1 + p2)) = Real.sin (p1 + p2) :=
      Real.cos_pi_div_two_sub _
    have hsum : Real.pi / 2 - (p1 + p2) + (Real.pi - p3) =
        Real.pi / 2 - (p1 + p2 + p3) + Real.pi := by ring
    have hsinSE : Real.sin (Real.pi / 2 - (p1 + p2) + (Real.pi - p3)) =
        -Real.cos (p1 + p2 + p3) := by
      rw [hsum, Real.sin_add_pi, Real.sin_pi_div_two_sub]
    have hcosSE : Real.cos (Real.pi / 2 - (p1 + p2) + (Real.pi - p3)) =
        -Real.sin (p1 + p2 + p3) := by
      rw [hsum, Real.cos_add_pi, Real.cos_pi_div_two_sub]
    obtain ⟨hrad, hvert⟩ := twolink_assembly h p1 p3 p2 e1 e2
    -- the solver's planar coordinates
    have hr0 : (0 : ℝ) ≤ x * x + z * z :=
      add_nonneg (mul_self_nonneg x) (mul_self_nonneg z)
    have hrr : rIK x z * rIK x z = x * x + z * z := Real.mul_self_sqrt hr0
    have hhr : Real.sqrt ((y - L1) ^ 2 + rIK x z ^ 2) = h := by
      rw [hhdef, hIK]
      congr 1
      ring
    obtain ⟨hsin2, hcos2⟩ := atan2_spec (y - L1) (rIK x z)
    rw [hhr] at hsin2 hcos2
    rw [← hp2def] at hsin2 hcos2
    have hxz : Real.sqrt (x ^ 2 + z ^ 2) = rIK x z := by
      rw [rIK]
      congr 1
      ring
    obtain ⟨hsinb, hcosb⟩ := atan2_spec x z
    rw [hxz] at hsinb hcosb
    -- assemble the three components
    have hrho2 : L2 * Real.cos (p1 + p2) + L3 * -Real.cos (p1 + p2 + p3) = rIK x z := by
      rw [← hcos2]; linear_combination hrad
    have hv2 : L2 * Real.sin (p1 + p2) + L3 * -Real.sin (p1 + p2 + p3) = y - L1 := by
      rw [← hsin2]; linear_combination hvert
    rw [fk]
    simp only [hsinS, hcosS, hsinSE, hcosSE]
    rw [V3.mk.injEq]
    refine ⟨?_, ?_, ?_⟩
    · rw [hrho2, mul_comm]; exact hsinb
    · linear_combination hv2
    · rw [hrho2, mul_comm]; exact hcosb

/-- The solver distance at `(0, 1, 3)` is `3`. -/
lemma hIK_013 : hIK 0 1 3 = 3 := by
  have hr : rIK 0 3 = 3 := by
    rw [rIK, show (0 : ℝ) * 0 + 3 * 3 = 3 ^ 2 by norm_num, Real.sqrt_sq (by norm_num)]
  rw [hIK, hr, L1, show (3 : ℝ) * 3 + (1 - 1) * (1 - 1) = 3 ^ 2 by norm_num,
    Real.sqrt_sq (by norm_num)]

/-- Witness for claim C1 (amended) at the spec's example target `(0, 1, 3)`,
whose distance from the shoulder pivot is `3 ∈ [L2-L3, L2+L3]`. -/
theorem solveIK_reproduces_target_witness :
    (L2 - L3 ≤ hIK 0 1 3 ∧ hIK 0 1 3 ≤ L2 + L3) ∧
    ∃ a : JointAngles,
      solveIK 0 1 3 = some ⟨a.base, some a.shoulder, some a.elbow⟩ ∧
      fk a = ⟨0, 1, 3⟩ := by
  have h1 : L2 - L3 ≤ hIK 0 1 3 := by
    rw [hIK_013]; simp only [L2, L3]; norm_num
  have h2 : hIK 0 1 3 ≤ L2 + L3 := by
    rw [hIK_013]; simp only [L2, L3]; norm_num
  exact ⟨⟨h1, h2⟩, solveIK_reproduces_target 0 1 3 h1 h2⟩

/-- CLAIM C1 counterexample: the claim as stated quantifies over all targets
with `h ≤ L2 + L3`, but at `(0, 1, 0.2)` we have `h = 0.2 ≤ L2 + L3` while the
solver returns NaN shoulder/elbow components (the `acos` arguments exceed `1`
because `h < L2 - L3`), so no well-defined angles reproducing the target are
returned. -/
theorem solveIK_reach_check_counterexample :
    hIK 0 1 0.2 ≤ L2 + L3 ∧
    ¬ ∃ a : JointAngles,
        solveIK 0 1 0.2 = some ⟨a.base, some a.shoulder, some a.elbow⟩ ∧
        fk a = ⟨0, 1, 0.2⟩ := by
  constructor
  · rw [hIK_near_pivot]; simp only [L2, L3]; norm_num
  · rintro ⟨a, heq, -⟩
    rw [solveIK_near_pivot] at heq
    simp only [Option.some.injEq, JointAnglesJS.mk.injEq] at heq
    exact Option.noConfusion heq.2.1

/-- The math helper from `part_000`/`part_001`:
`const lerp = (start, end, speed) => start + (end - start) * speed`. -/
def lerp (start finish speed : ℝ) : ℝ := start + (finish - start) * speed

/-- Repeated application of the per-frame smoothing step with constant desired
value `d` and the source's smoothing factor `0.1`, starting from actual angle `a`
(`lerp(smoothAngles.c, desiredAngles.current.c, 0.1)` each frame). -/
noncomputable def smoothSeq (a d : ℝ) : ℕ → ℝ
  | 0 => a
  | n + 1 => lerp (smoothSeq a d n) d 0.1

/-- Closed form of the smoothing iteration: geometric decay of the error. -/
lemma smoothSeq_closed (a d : ℝ) (n : ℕ) :
    smoothSeq a d n = d - (d - a) * 0.9 ^ n := by
  induction n with
  | zero => simp [smoothSeq]
  | succ n ih =>
      rw [show smoothSeq a d (n + 1) = lerp (smoothSeq a d n) d 0.1 from rfl, lerp, ih]
      ring

/-- CLAIM C3: with a constant desired value `d`, each smoothing step shrinks the
absolute error by the exact factor `0.9`, every iterate lies between the
previous iterate and `d` (no overshoot, monotone approach), and the sequence
converges to `d`. -/
theorem smoother_monotone_convergence (a d : ℝ) (n : ℕ) :
    |d - smoothSeq a d (n + 1)| = 0.9 * |d - smoothSeq a d n| ∧
    ((smoothSeq a d n ≤ smoothSeq a d (n + 1) ∧ smoothSeq a d (n + 1) ≤ d) ∨
      (d ≤ smoothSeq a d (n + 1) ∧ smoothSeq a d (n + 1) ≤ smoothSeq a d n)) ∧
    Filter.Tendsto (smoothSeq a d) Filter.atTop (nhds d) := by
  have hc := smoothSeq_closed a d
  have hp : (0.9 : ℝ) ^ (n + 1) = 0.9 ^ n * 0.9 := pow_succ 0.9 n
  have hnn : (0 : ℝ) ≤ 0.9 ^ n := by positivity
  have hnn1 : (0 : ℝ) ≤ 0.9 ^ (n + 1) := by positivity
  refine ⟨?_, ?_, ?_⟩
  · rw [hc, hc,
      show d - (d - (d - a) * 0.9 ^ (n + 1)) = 0.9 * (d - (d - (d - a) * 0.9 ^ n)) from by
        rw [hp]; ring,
      abs_mul, abs_of_nonneg (by norm_num : (0 : ℝ) ≤ 0.9)]
  · rcases le_total a d with hle | hle
    · left
      constructor
      · rw [hc, hc]; nlinarith
      · rw [hc]; nlinarith
    · right
      constructor
      · rw [hc]; nlinarith
      · rw [hc, hc]; nlinarith
  · have h1 : Filter.Tendsto (fun k : ℕ => (0.9 : ℝ) ^ k) Filter.atTop (nhds 0) :=
      tendsto_pow_atTop_nhds_zero_of_lt_one (by norm_num) (by norm_num)
    have h2 := (h1.const_mul (d - a)).const_sub d
    have hfun : smoothSeq a d = fun k => d - (d - a) * 0.9 ^ k := funext hc
    rw [hfun]
    simpa using h2

/-- One telemetry append, from `setTelemetryData` in `part_000` (capacity 50)
and `part_001` (capacity 40):
`newData = [...prev, sample]; if (newData.length > cap) newData.shift()`. -/
def telemetryPush {α : Type} (cap : ℕ) (prev : List α) (sample : α) : List α :=
  let newData := prev ++ [sample]
  if cap < newData.length then newData.tail else newData

/-- The telemetry history obtained by appending a sequence of samples one per
sampled tick, starting from the initial empty history. -/
def telemetryRun {α : Type} (cap : ℕ) (samples : List α) : List α :=
  List.foldl (telemetryPush cap) [] samples

/-- Folding `telemetryPush` over any sample list from a within-capacity
accumulator keeps exactly the most recent `cap` entries, in arrival order. -/
lemma telemetryRun_aux {α : Type} (cap : ℕ) (l : List α) :
    ∀ acc : List α, acc.length ≤ cap →
      List.foldl (telemetryPush cap) acc l = (acc ++ l).drop ((acc ++ l).length - cap) := by
  induction l with
  | nil =>
      intro acc hacc
      simp [Nat.sub_eq_zero_of_le, hacc, Nat.sub_eq_zero_iff_le.mpr]
  | cons s rest ih =>
      intro acc hacc
      rw [List.foldl_cons]
      have hpush : telemetryPush cap acc s =
          (acc ++ [s]).drop ((acc ++ [s]).length - cap) := by
        rw [telemetryPush]
        by_cases hcap : cap < (acc ++ [s]).length
        · rw [if_pos hcap]
          have hone : (acc ++ [s]).length - cap = 1 := by
            simp only [List.length_append, List.length_cons, List.length_nil] at hcap ⊢
            omega
          rw [hone, ← List.drop_one]
        · rw [if_neg hcap]
          have hzero : (acc ++ [s]).length - cap = 0 := by omega
          rw [hzero, List.drop_zero]
      rw [hpush]
      have hlen : ((acc ++ [s]).drop ((acc ++ [s]).length - cap)).length ≤ cap := by
        rw [List.length_drop]
        omega
      rw [ih _ hlen]
      set A := acc ++ [s] with hA
      set k := A.length - cap with hk2
      have hlen2 : (A.drop k ++ rest).length = A.length - k + rest.length := by
        simp [List.length_drop]
      rw [hlen2, ← List.drop_append_of_le_length (hk2 ▸ Nat.sub_le A.length cap),
        List.drop_drop]
      have hflat : A ++ rest = acc ++ s :: rest := by simp [hA]
      rw [hflat]
      congr 1
      have hAl : A.length = acc.length + 1 := by simp [hA]
      simp only [List.length_append, List.length_cons]
      omega

/-- CLAIM C6: the telemetry history never exceeds its fixed capacity (50 in the
`part_000` variant, 40 in the `part_001` variant), and the retained entries are
exactly the most recent ones in arrival order — the oldest samples are evicted
first (FIFO). -/
theorem telemetry_bounded_fifo {α : Type} (samples : List α) :
    ((telemetryRun 50 samples).length ≤ 50 ∧
      telemetryRun 50 samples = samples.drop (samples.length - 50)) ∧
    ((telemetryRun 40 samples).length ≤ 40 ∧
      telemetryRun 40 samples = samples.drop (samples.length - 40)) := by
  have h50 := telemetryRun_aux 50 samples [] (by simp)
  have h40 := telemetryRun_aux 40 samples [] (by simp)
  simp only [List.nil_append] at h50 h40
  refine ⟨⟨?_, h50⟩, ⟨?_, h40⟩⟩
  · rw [telemetryRun, h50, List.length_drop]; omega
  · rw [telemetryRun, h40, List.length_drop]; omega

/-- The telemetry velocity computation from the per-frame loop:
`Math.abs((newAngles.shoulder - prevAngles.current.shoulder) / delta)`.
The shoulder angles may be NaN (`none`), which propagates; and for
`delta = 0` the JS quotient is `±Infinity` (or NaN), i.e. not a well-defined
finite number, modelled as `none`. -/
noncomputable def velocityJS (cur prev : Option ℝ) (delta : ℝ) : Option ℝ :=
  match cur, prev with
  | some a, some b => if delta = 0 then none else some |(a - b) / delta|
  | _, _ => none

/-- CLAIM C8 counterexample: the code does not guard `elapsed_time = 0`; at
`delta = 0` the velocity sample is not a well-defined number, and in particular
it is not the `0` that the claim says the guard reports. -/
theorem velocity_zero_delta_counterexample :
    velocityJS (some 1) (some 0) 0 = none ∧ velocityJS (some 1) (some 0) 0 ≠ some 0 := by
  constructor
  · simp [velocityJS]
  · simp [velocityJS]

/-- CLAIM C8 (amended): the velocity computation has no `elapsed_time = 0`
guard.  For every nonzero `delta` and well-defined angles it produces the
well-defined finite sample `|Δshoulder / delta|`, but at `delta = 0` the sample
is undefined (JS `Infinity`/NaN), not `0`. -/
theorem velocity_welldefined_iff_delta_nonzero (a b delta : ℝ) (hd : delta ≠ 0) :
    velocityJS (some a) (some b) delta = some |(a - b) / delta| ∧
    velocityJS (some a) (some b) 0 = none := by
  constructor
  · simp [velocityJS, hd]
  · simp [velocityJS]

/-- Witness for claim C8 (amended) at `delta = 1`. -/
theorem velocity_welldefined_iff_delta_nonzero_witness :
    (1 : ℝ) ≠ 0 ∧
    (velocityJS (some 2) (some 1) 1 = some |((2 : ℝ) - 1) / 1| ∧
      velocityJS (some 2) (some 1) 0 = none) :=
  ⟨by norm_num, velocity_welldefined_iff_delta_nonzero 2 1 1 (by norm_num)⟩

/-- Operating mode of the `part_001` controller: `'MANUAL' | 'AUTO_PICK' | 'REPLAY'`. -/
inductive Mode
  | MANUAL
  | AUTO_PICK
  | REPLAY
deriving DecidableEq

/-- Phase of the autonomous pick-and-place state machine (`autoPhase`). -/
inductive Phase
  | IDLE
  | APPROACH
  | DESCEND
  | LIFT
  | MOVE_TO_ZONE
  | LOWER_TO_DROP
  | RETRACT
deriving DecidableEq

/-- A recorded waypoint: `{ pos: THREE.Vector3; grip: boolean }`. -/
structure Waypoint where
  pos : V3
  grip : Bool

/-- A liftable block: identity, current position and vertical velocity
(the `Block` component's `position`/`velocityY` refs, keyed by `data.id`). -/
structure BlockSt where
  id : ℕ
  pos : V3
  velY : ℝ

/-- A telemetry sample `{ time, velocity, torque }`.  Velocity and torque are
`Option ℝ` because NaN shoulder angles propagate into them. -/
structure Sample where
  time : ℕ
  velocity : Option ℝ
  torque : Option ℝ

/-- The `RobotController` state of `part_001`: React state plus the mutable
refs (`desiredAngles`, `prevAngles`, `frameCount`, `blockPositions`). -/
structure Sim where
  ikTarget : V3
  smoothAngles : JointAnglesJS
  desired : JointAnglesJS
  prevAngles : JointAnglesJS
  isGripping : Bool
  attachedBlockId : Option ℕ
  mode : Mode
  autoPhase : Phase
  waypoints : List Waypoint
  replayIndex : ℕ
  blocks : List BlockSt
  frameCount : ℕ
  telemetry : List Sample

/-- JS truthiness of a `number | null` value: `null` is falsy and so is `0`
(block ids here are `1` and `2`, so `0` never occurs in practice). -/
def truthy (o : Option ℕ) : Bool :=
  match o with
  | some n => n != 0
  | none => false

/-- `lerp` on possibly-NaN values: NaN propagates through `+`, `-`, `*`. -/
noncomputable def lerpJS (a b : Option ℝ) : Option ℝ :=
  match a, b with
  | some a, some b => some (lerp a b 0.1)
  | _, _ => none

/-- Step 1 of the frame loop: `newAngles`, interpolating each smoothed angle a
tenth of the way towards the desired angle. -/
noncomputable def smoothStep (s : Sim) : JointAnglesJS :=
  { base := lerp s.smoothAngles.base s.desired.base 0.1
    shoulder := lerpJS s.smoothAngles.shoulder s.desired.shoulder
    elbow := lerpJS s.smoothAngles.elbow s.desired.elbow }

/-- The telemetry torque proxy:
`Math.abs(Math.cos(newAngles.shoulder) + (attachedBlockId ? 1.5 : 0))`. -/
noncomputable def torqueJS (shoulder : Option ℝ) (attached : Option ℕ) : Option ℝ :=
  Option.map (fun c => |c + (if truthy attached then 1.5 else 0)|)
    (Option.map Real.cos shoulder)

/-- Step 2 of the frame loop: increment `frameCount` and, every 5th frame,
append a telemetry sample to the capacity-40 history. -/
noncomputable def telemetrySection (delta : ℝ) (newAngles : JointAnglesJS) (s : Sim) : Sim :=
  let fc := s.frameCount + 1
  if fc % 5 = 0 then
    { s with
      frameCount := fc
      telemetry := telemetryPush 40 s.telemetry
        ⟨fc, velocityJS newAngles.shoulder s.prevAngles.shoulder delta,
          torqueJS newAngles.shoulder s.attachedBlockId⟩ }
  else { s with frameCount := fc }

/-- `handleTargetMove`: always update the target; update the desired angles only
when the solver returns a non-null object (`if (solution) ...` — any object is
truthy in JS, NaN fields included). -/
noncomputable def handleTargetMove (s : Sim) (newPos : V3) : Sim :=
  { s with
    ikTarget := newPos
    desired := match solveIK newPos.x newPos.y newPos.z with
      | some sol => sol
      | none => s.desired }

/-- `moveTowards(dest, speed)`: step the target a fixed distance along the
normalised direction to `dest`, then run `handleTargetMove`. -/
noncomputable def moveTowards (s : Sim) (dest : V3) (speed : ℝ) : Sim :=
  handleTargetMove s (vadd s.ikTarget (smul speed (vnormalize (vsub dest s.ikTarget))))

/-- The scan of `tryGrabClosest`: fold over the published block positions with
the capture radius `1.5` as initial best distance, keeping strict improvements. -/
noncomputable def closestBlock (pos : V3) (blocks : List BlockSt) : Option ℕ :=
  (blocks.foldl
    (fun acc b => if vdist pos b.pos < acc.1 then (vdist pos b.pos, some b.id) else acc)
    ((1.5 : ℝ), (none : Option ℕ))).2

/-- `tryGrabClosest`: set the grip flag, then attach the closest block if one
lies strictly within the capture radius (`if (closestId) ...` — truthiness).
`pos` is the `ikTarget` value captured by the React render the handler runs in. -/
noncomputable def tryGrabClosest (pos : V3) (s : Sim) : Sim :=
  let closestId := closestBlock pos s.blocks
  { s with
    isGripping := true
    attachedBlockId := if truthy closestId then closestId else s.attachedBlockId }

/-- `toggleGripper`: release if a block is attached, otherwise try to grab. -/
noncomputable def toggleGripper (s : Sim) : Sim :=
  if truthy s.attachedBlockId then
    { s with attachedBlockId := none, isGripping := false }
  else tryGrabClosest s.ikTarget s

/-- Step 3 of the frame loop (AUTO PICK).  All reads of React state inside one
frame see the render snapshot `s`; in particular the final
`if (mode === 'AUTO_PICK' && autoPhase !== 'IDLE')` guard reads the stale
`autoPhase`, so in the `IDLE` phase neither the move nor the phase write
happens (the `nextPhase = 'APPROACH'` assignment is lost).
`targetBlockIdForAuto` is a ref initialised to `1` and never reassigned. -/
noncomputable def autoSection (delta : ℝ) (s : Sim) : Sim :=
  if s.mode = Mode.AUTO_PICK then
    let speed := 6 * delta
    let bp := (match s.blocks.find? (fun b => b.id == 1) with
      | some b => b.pos
      | none => (⟨4, 0.5, 4⟩ : V3))
    match s.autoPhase with
    | Phase.IDLE => s
    | Phase.APPROACH =>
        let dest : V3 := ⟨bp.x, bp.y + 2, bp.z⟩
        let s1 := moveTowards s dest speed
        if vdist s.ikTarget dest < 0.1 then { s1 with autoPhase := Phase.DESCEND } else s1
    | Phase.DESCEND =>
        let dest : V3 := ⟨bp.x, bp.y, bp.z⟩
        let s1 := moveTowards s dest speed
        if vdist s.ikTarget dest < 0.1 then
          { s1 with isGripping := true, attachedBlockId := some 1, autoPhase := Phase.LIFT }
        else s1
    | Phase.LIFT =>
        let dest : V3 := ⟨bp.x, 3, bp.z⟩
        let s1 := moveTowards s dest speed
        if vdist s.ikTarget dest < 0.1 then { s1 with autoPhase := Phase.MOVE_TO_ZONE } else s1
    | Phase.MOVE_TO_ZONE =>
        let dest : V3 := ⟨-4, 3, 2⟩
        let s1 := moveTowards s dest speed
        if vdist s.ikTarget dest < 0.1 then { s1 with autoPhase := Phase.LOWER_TO_DROP } else s1
    | Phase.LOWER_TO_DROP =>
        let dest : V3 := ⟨-4, 0.8, 2⟩
        let s1 := moveTowards s dest speed
        if vdist s.ikTarget dest < 0.1 then
          { s1 with isGripping := false, attachedBlockId := none, autoPhase := Phase.RETRACT }
        else s1
    | Phase.RETRACT =>
        let dest : V3 := ⟨0, 3, 0⟩
        let s1 := moveTowards s dest speed
        if vdist s.ikTarget dest < 0.1 then
          { s1 with mode := Mode.MANUAL, autoPhase := Phase.IDLE }
        else s1
  else s

/-- Step 4 of the frame loop (REPLAY).  The distance test and the grab both use
the render-snapshot `ikTarget` (the `setIkTarget` inside `moveTowards` does not
change the `ikTarget` binding of the running frame). -/
noncomputable def replaySection (delta : ℝ) (s : Sim) : Sim :=
  if s.mode = Mode.REPLAY then
    if s.waypoints.length = 0 then { s with mode := Mode.MANUAL }
    else
      match s.waypoints.get? s.replayIndex with
      | none => s
      | some targetPoint =>
        let s1 := moveTowards s targetPoint.pos (4 * delta)
        if vdist s.ikTarget targetPoint.pos < 0.1 then
          let s2 :=
            if targetPoint.grip ≠ s.isGripping then
              if targetPoint.grip then tryGrabClosest s.ikTarget s1
              else { s1 with isGripping := false, attachedBlockId := none }
            else s1
          { s2 with replayIndex := (s.replayIndex + 1) % s.waypoints.length }
        else s1
  else s

/-- One `Block` component frame: an attached block tracks the end-effector
target with zero velocity; a free block falls with a fixed velocity decrement
per frame and is clamped to the floor at `y = 0.5`. -/
noncomputable def blockFrame (attachedId : Option ℕ) (targetPos : V3) (b : BlockSt) : BlockSt :=
  if attachedId = some b.id then { b with pos := targetPos, velY := 0 }
  else
    let b1 :=
      if b.pos.y > 0.5 then
        { b with velY := b.velY - 0.02, pos := ⟨b.pos.x, b.pos.y + (b.velY - 0.02), b.pos.z⟩ }
      else b
    if b1.pos.y ≤ 0.5 then { b1 with pos := ⟨b1.pos.x, 0.5, b1.pos.z⟩, velY := 0 } else b1

/-- All `Block` frames of a tick.  They run after the controller frame but with
the props of the last React render, i.e. the pre-frame attachment and target. -/
noncomputable def blocksSection (attachedId : Option ℕ) (targetPos : V3) (s : Sim) : Sim :=
  { s with blocks := s.blocks.map (blockFrame attachedId targetPos) }

/-- One full simulation tick of `part_001`: smoothing, telemetry, the AUTO PICK
machine, the REPLAY stepper (sections read only fields the earlier sections do
not write, so sequential composition equals the JS snapshot semantics), then
the block physics with the pre-frame attachment/target props
(`targetPosition = (ikTarget.x, ikTarget.y - 0.75, ikTarget.z)`). -/
noncomputable def frame (delta : ℝ) (s : Sim) : Sim :=
  let newAngles := smoothStep s
  let s1 := { s with smoothAngles := newAngles }
  let s2 := telemetrySection delta newAngles s1
  let s3 := { s2 with prevAngles := newAngles }
  let s4 := autoSection delta s3
  let s5 := replaySection delta s4
  blocksSection s.attachedBlockId ⟨s.ikTarget.x, s.ikTarget.y - 0.75, s.ikTarget.z⟩ s5

/-- The AUTO PICK button of `part_001`:
`onClick={() => setMode('AUTO_PICK')} disabled={mode !== 'MANUAL'}`.
There is no attachment guard. -/
noncomputable def pressAutoPick (s : Sim) : Sim :=
  if s.mode = Mode.MANUAL then { s with mode := Mode.AUTO_PICK } else s

/-- The REC button: append the current target and grip flag as a waypoint;
disabled outside manual mode. -/
noncomputable def recordWaypoint (s : Sim) : Sim :=
  if s.mode = Mode.MANUAL then
    { s with waypoints := s.waypoints ++ [⟨s.ikTarget, s.isGripping⟩] }
  else s

/-- The PLAY/STOP button (`toggleReplay`), disabled while no waypoints exist:
stop replay if running, otherwise enter replay at index 0. -/
noncomputable def toggleReplay (s : Sim) : Sim :=
  if s.waypoints.length = 0 then s
  else if s.mode = Mode.REPLAY then { s with mode := Mode.MANUAL }
  else { s with mode := Mode.REPLAY, replayIndex := 0 }

/-- The initial blocks of `part_001` (`INITIAL_BLOCKS`): ids 1 and 2. -/
noncomputable def initBlocks : List BlockSt :=
  [⟨1, ⟨4, 0.5, 4⟩, 0⟩, ⟨2, ⟨4, 0.5, -2⟩, 0⟩]

/-- The initial `RobotController` state of `part_001`. -/
noncomputable def initSim : Sim :=
  { ikTarget := ⟨2, 2, 2⟩
    smoothAngles := ⟨0, some 0, some 0⟩
    desired := ⟨0, some 0, some 0⟩
    prevAngles := ⟨0, some 0, some 0⟩
    isGripping := false
    attachedBlockId := none
    mode := Mode.MANUAL
    autoPhase := Phase.IDLE
    waypoints := []
    replayIndex := 0
    blocks := initBlocks
    frameCount := 0
    telemetry := [] }

/-- `handleReset`: back to manual/idle, release, home target, clear program,
and (via the `resetKey` effect) reset every block's position and velocity.
The desired/smoothed angles, telemetry, frame counter and replay index are not
reset by the code. -/
noncomputable def handleReset (s : Sim) : Sim :=
  { s with
    mode := Mode.MANUAL
    autoPhase := Phase.IDLE
    isGripping := false
    attachedBlockId := none
    ikTarget := ⟨2, 2, 2⟩
    waypoints := []
    blocks := initBlocks }

/-- Dragging the target gizmo (`TransformControls`), mounted only in manual mode. -/
noncomputable def dragTarget (s : Sim) (p : V3) : Sim :=
  if s.mode = Mode.MANUAL then handleTargetMove s p else s

/-- The operations an operator (or the frame clock) can apply to the controller. -/
inductive Op
  | frame (delta : ℝ)
  | toggleGripper
  | pressAutoPick
  | recordWaypoint
  | toggleReplay
  | reset
  | drag (p : V3)

/-- Apply one operation. -/
noncomputable def applyOp (s : Sim) : Op → Sim
  | Op.frame delta => frame delta s
  | Op.toggleGripper => toggleGripper s
  | Op.pressAutoPick => pressAutoPick s
  | Op.recordWaypoint => recordWaypoint s
  | Op.toggleReplay => toggleReplay s
  | Op.reset => handleReset s
  | Op.drag p => dragTarget s p

/-- Apply a sequence of operations, oldest first. -/
noncomputable def applyOps (ops : List Op) (s : Sim) : Sim := ops.foldl applyOp s

/-- Distances are nonnegative. -/
lemma vdist_nonneg (a b : V3) : 0 ≤ vdist a b := Real.sqrt_nonneg _

@[simp] lemma handleTargetMove_ikTarget (s : Sim) (p : V3) :
    (handleTargetMove s p).ikTarget = p := rfl

@[simp] lemma handleTargetMove_mode (s : Sim) (p : V3) :
    (handleTargetMove s p).mode = s.mode := rfl

@[simp] lemma handleTargetMove_isGripping (s : Sim) (p : V3) :
    (handleTargetMove s p).isGripping = s.isGripping := rfl

@[simp] lemma handleTargetMove_attached (s : Sim) (p : V3) :
    (handleTargetMove s p).attachedBlockId = s.attachedBlockId := rfl

@[simp] lemma handleTargetMove_waypoints (s : Sim) (p : V3) :
    (handleTargetMove s p).waypoints = s.waypoints := rfl

@[simp] lemma handleTargetMove_replayIndex (s : Sim) (p : V3) :
    (handleTargetMove s p).replayIndex = s.replayIndex := rfl

@[simp] lemma handleTargetMove_blocks (s : Sim) (p : V3) :
    (handleTargetMove s p).blocks = s.blocks := rfl

@[simp] lemma handleTargetMove_autoPhase (s : Sim) (p : V3) :
    (handleTargetMove s p).autoPhase = s.autoPhase := rfl

@[simp] lemma moveTowards_mode (s : Sim) (d : V3) (sp : ℝ) :
    (moveTowards s d sp).mode = s.mode := rfl

@[simp] lemma moveTowards_isGripping (s : Sim) (d : V3) (sp : ℝ) :
    (moveTowards s d sp).isGripping = s.isGripping := rfl

@[simp] lemma moveTowards_attached (s : Sim) (d : V3) (sp : ℝ) :
    (moveTowards s d sp).attachedBlockId = s.attachedBlockId := rfl

@[simp] lemma moveTowards_waypoints (s : Sim) (d : V3) (sp : ℝ) :
    (moveTowards s d sp).waypoints = s.waypoints := rfl

@[simp] lemma moveTowards_replayIndex (s : Sim) (d : V3) (sp : ℝ) :
    (moveTowards s d sp).replayIndex = s.replayIndex := rfl

@[simp] lemma moveTowards_blocks (s : Sim) (d : V3) (sp : ℝ) :
    (moveTowards s d sp).blocks = s.blocks := rfl

@[simp] lemma moveTowards_autoPhase (s : Sim) (d : V3) (sp : ℝ) :
    (moveTowards s d sp).autoPhase = s.autoPhase := rfl

@[simp] lemma tryGrabClosest_isGripping (pos : V3) (s : Sim) :
    (tryGrabClosest pos s).isGripping = true := rfl

@[simp] lemma tryGrabClosest_mode (pos : V3) (s : Sim) :
    (tryGrabClosest pos s).mode = s.mode := rfl

@[simp] lemma tryGrabClosest_waypoints (pos : V3) (s : Sim) :
    (tryGrabClosest pos s).waypoints = s.waypoints := rfl

@[simp] lemma tryGrabClosest_replayIndex (pos : V3) (s : Sim) :
    (tryGrabClosest pos s).replayIndex = s.replayIndex := rfl

@[simp] lemma tryGrabClosest_blocks (pos : V3) (s : Sim) :
    (tryGrabClosest pos s).blocks = s.blocks := rfl

@[simp] lemma tryGrabClosest_ikTarget (pos : V3) (s : Sim) :
    (tryGrabClosest pos s).ikTarget = s.ikTarget := rfl

@[simp] lemma tryGrabClosest_autoPhase (pos : V3) (s : Sim) :
    (tryGrabClosest pos s).autoPhase = s.autoPhase := rfl

@[simp] lemma telemetrySection_mode (delta : ℝ) (na : JointAnglesJS) (s : Sim) :
    (telemetrySection delta na s).mode = s.mode := by
  simp only [telemetrySection]
  split <;> rfl

@[simp] lemma telemetrySection_ikTarget (delta : ℝ) (na : JointAnglesJS) (s : Sim) :
    (telemetrySection delta na s).ikTarget = s.ikTarget := by
  simp only [telemetrySection]
  split <;> rfl

@[simp] lemma telemetrySection_isGripping (delta : ℝ) (na : JointAnglesJS) (s : Sim) :
    (telemetrySection delta na s).isGripping = s.isGripping := by
  simp only [telemetrySection]
  split <;> rfl

@[simp] lemma telemetrySection_attached (delta : ℝ) (na : JointAnglesJS) (s : Sim) :
    (telemetrySection delta na s).attachedBlockId = s.attachedBlockId := by
  simp only [telemetrySection]
  split <;> rfl

@[simp] lemma telemetrySection_waypoints (delta : ℝ) (na : JointAnglesJS) (s : Sim) :
    (telemetrySection delta na s).waypoints = s.waypoints := by
  simp only [telemetrySection]
  split <;> rfl

@[simp] lemma telemetrySection_replayIndex (delta : ℝ) (na : JointAnglesJS) (s : Sim) :
    (telemetrySection delta na s).replayIndex = s.replayIndex := by
  simp only [telemetrySection]
  split <;> rfl

@[simp] lemma telemetrySection_blocks (delta : ℝ) (na : JointAnglesJS) (s : Sim) :
    (telemetrySection delta na s).blocks = s.blocks := by
  simp only [telemetrySection]
  split <;> rfl

@[simp] lemma telemetrySection_autoPhase (delta : ℝ) (na : JointAnglesJS) (s : Sim) :
    (telemetrySection delta na s).autoPhase = s.autoPhase := by
  simp only [telemetrySection]
  split <;> rfl

@[simp] lemma blocksSection_mode (a : Option ℕ) (t : V3) (s : Sim) :
    (blocksSection a t s).mode = s.mode := rfl

@[simp] lemma blocksSection_ikTarget (a : Option ℕ) (t : V3) (s : Sim) :
    (blocksSection a t s).ikTarget = s.ikTarget := rfl

@[simp] lemma blocksSection_isGripping (a : Option ℕ) (t : V3) (s : Sim) :
    (blocksSection a t s).isGripping = s.isGripping := rfl

@[simp] lemma blocksSection_attached (a : Option ℕ) (t : V3) (s : Sim) :
    (blocksSection a t s).attachedBlockId = s.attachedBlockId := rfl

@[simp] lemma blocksSection_waypoints (a : Option ℕ) (t : V3) (s : Sim) :
    (blocksSection a t s).waypoints = s.waypoints := rfl

@[simp] lemma blocksSection_replayIndex (a : Option ℕ) (t : V3) (s : Sim) :
    (blocksSection a t s).replayIndex = s.replayIndex := rfl

@[simp] lemma blocksSection_autoPhase (a : Option ℕ) (t : V3) (s : Sim) :
    (blocksSection a t s).autoPhase = s.autoPhase := rfl

/-- The AUTO PICK section is a no-op in any other mode. -/
lemma autoSection_not_auto (delta : ℝ) (s : Sim) (h : s.mode ≠ Mode.AUTO_PICK) :
    autoSection delta s = s := by
  simp only [autoSection]
  rw [if_neg h]

/-- The REPLAY section is a no-op in any other mode. -/
lemma replaySection_not_replay (delta : ℝ) (s : Sim) (h : s.mode ≠ Mode.REPLAY) :
    replaySection delta s = s := by
  simp only [replaySection]
  rw [if_neg h]

/-- Unfolding of one frame into its four sections. -/
lemma frame_decomp (delta : ℝ) (s : Sim) :
    frame delta s =
      blocksSection s.attachedBlockId ⟨s.ikTarget.x, s.ikTarget.y - 0.75, s.ikTarget.z⟩
        (replaySection delta (autoSection delta
          { telemetrySection delta (smoothStep s) { s with smoothAngles := smoothStep s } with
            prevAngles := smoothStep s })) := rfl

/-- CLAIM C2: a target strictly beyond the maximum extension `L2 + L3` makes
`solveIK` return `null` (`none`), and `handleTargetMove` then keeps the desired
joint angles unchanged from their previous value (while still moving the
target itself). -/
theorem unreachable_returns_null_and_holds_command (x y z : ℝ) (st : Sim)
    (hf : L2 + L3 < hIK x y z) :
    solveIK x y z = none ∧
    (handleTargetMove st ⟨x, y, z⟩).desired = st.desired ∧
    (handleTargetMove st ⟨x, y, z⟩).ikTarget = ⟨x, y, z⟩ := by
  have hnone : solveIK x y z = none := by
    rw [solveIK]
    rw [if_pos hf]
  exact ⟨hnone, by simp [handleTargetMove, hnone], rfl⟩

/-- The solver distance at the spec's example `(0, 1, 10)` is `10`. -/
lemma hIK_far : hIK 0 1 10 = 10 := by
  have hr : rIK 0 10 = 10 := by
    rw [rIK, show (0 : ℝ) * 0 + 10 * 10 = 10 ^ 2 by norm_num, Real.sqrt_sq (by norm_num)]
  rw [hIK, hr, L1, show (10 : ℝ) * 10 + (1 - 1) * (1 - 1) = 10 ^ 2 by norm_num,
    Real.sqrt_sq (by norm_num)]

/-- Witness for claim C2 at the spec's example target `(0, 1, 10)`, which is
beyond the maximum extension `5.5`. -/
theorem unreachable_returns_null_witness :
    L2 + L3 < hIK 0 1 10 ∧
    (solveIK 0 1 10 = none ∧
      (handleTargetMove initSim ⟨0, 1, 10⟩).desired = initSim.desired ∧
      (handleTargetMove initSim ⟨0, 1, 10⟩).ikTarget = ⟨0, 1, 10⟩) := by
  have hlt : L2 + L3 < hIK 0 1 10 := by
    rw [hIK_far]; simp only [L2, L3]; norm_num
  exact ⟨hlt, unreachable_returns_null_and_holds_command 0 1 10 initSim hlt⟩

/-- The `part_000` single-block controller state (only difference relevant
here: attachment is the boolean `hasBlock` and there is no mode enum — the
rendering-only fields shared with `part_001` are kept). -/
structure Sim0 where
  ikTarget : V3
  desired : JointAnglesJS
  smoothAngles : JointAnglesJS
  isGripping : Bool
  hasBlock : Bool
  autoPhase : Phase
  blockPos : V3
  velY : ℝ
  frameCount : ℕ
  telemetry : List Sample

/-- `startAutoSequence` from `part_000`:
`if (hasBlock) { alert("Please drop the block first!"); return; }
setAutoPhase('APPROACH')` — the alert is presentation-only, the operation is
rejected with no state change. -/
noncomputable def startAutoSequence (s : Sim0) : Sim0 :=
  if s.hasBlock then s else { s with autoPhase := Phase.APPROACH }

/-- A `part_000` state holding the block, for the claim C4 witness. -/
noncomputable def autoDemo0 : Sim0 :=
  { ikTarget := ⟨2, 2, 2⟩
    desired := ⟨0, some 0, some 0⟩
    smoothAngles := ⟨0, some 0, some 0⟩
    isGripping := true
    hasBlock := true
    autoPhase := Phase.IDLE
    blockPos := ⟨2, 1.25, 2⟩
    velY := 0
    frameCount := 0
    telemetry := [] }

/-- CLAIM C4 (amended): in the `part_000` variant, `startAutoSequence` while
the block is held is rejected with no state change at all (in particular the
sequencer stays in its current phase and no grip or target state is touched).
In the `part_001` variant the AUTO PICK button has no attachment guard: in
manual mode it switches the mode to `AUTO_PICK` even while a block is attached
(changing nothing else). -/
theorem auto_entry_guard_by_variant (s0 : Sim0) (s : Sim)
    (h0 : s0.hasBlock = true) (hm : s.mode = Mode.MANUAL) :
    startAutoSequence s0 = s0 ∧
    pressAutoPick s = { s with mode := Mode.AUTO_PICK } := by
  constructor
  · rw [startAutoSequence, if_pos (by rw [h0])]
  · rw [pressAutoPick, if_pos hm]

/-- Witness for claim C4 (amended): the holding `part_000` state and the
initial `part_001` state. -/
theorem auto_entry_guard_by_variant_witness :
    (autoDemo0.hasBlock = true ∧ initSim.mode = Mode.MANUAL) ∧
    (startAutoSequence autoDemo0 = autoDemo0 ∧
      pressAutoPick initSim = { initSim with mode := Mode.AUTO_PICK }) :=
  ⟨⟨rfl, rfl⟩, auto_entry_guard_by_variant autoDemo0 initSim rfl rfl⟩

/-- Scanning the initial blocks from `(4, 0.5, 4)` captures block 1 (distance
`0`, within the radius; block 2 is then no improvement). -/
lemma closestBlock_at_block1 : closestBlock ⟨4, 0.5, 4⟩ initBlocks = some 1 := by
  have hd0 : vdist (⟨4, 0.5, 4⟩ : V3) (⟨4, 0.5, 4⟩ : V3) = 0 := by
    simp [vdist, vsub, vlen]
  have h1 : vdist (⟨4, 0.5, 4⟩ : V3) (⟨4, 0.5, 4⟩ : V3) < 1.5 := by
    rw [hd0]; norm_num
  rw [closestBlock, initBlocks]
  dsimp only [List.foldl_cons, List.foldl_nil]
  rw [if_pos h1]
  dsimp only
  rw [hd0, if_neg (not_lt.mpr (vdist_nonneg _ _))]

/-- CLAIM C4 counterexample: in `part_001`, drag the target onto block 1 and
grab it (block attached, still in manual mode); pressing AUTO PICK is then
accepted — the mode changes to `AUTO_PICK` — contradicting "rejected with no
state change, the mode stays manual". -/
theorem auto_entry_no_guard_counterexample :
    (applyOps [Op.drag ⟨4, 0.5, 4⟩, Op.toggleGripper] initSim).attachedBlockId = some 1 ∧
    (applyOps [Op.drag ⟨4, 0.5, 4⟩, Op.toggleGripper] initSim).mode = Mode.MANUAL ∧
    (applyOp (applyOps [Op.drag ⟨4, 0.5, 4⟩, Op.toggleGripper] initSim)
      Op.pressAutoPick).mode = Mode.AUTO_PICK := by
  have hmode0 : initSim.mode = Mode.MANUAL := rfl
  have hstep : applyOps [Op.drag ⟨4, 0.5, 4⟩, Op.toggleGripper] initSim =
      toggleGripper (handleTargetMove initSim ⟨4, 0.5, 4⟩) := by
    show toggleGripper (dragTarget initSim ⟨4, 0.5, 4⟩) = _
    rw [dragTarget, if_pos hmode0]
  have hneg : ¬ (truthy (handleTargetMove initSim ⟨4, 0.5, 4⟩).attachedBlockId = true) := by
    rw [handleTargetMove_attached]
    simp [initSim, truthy]
  have hgrab : toggleGripper (handleTargetMove initSim ⟨4, 0.5, 4⟩) =
      tryGrabClosest ⟨4, 0.5, 4⟩ (handleTargetMove initSim ⟨4, 0.5, 4⟩) := by
    rw [toggleGripper, if_neg hneg, handleTargetMove_ikTarget]
  have hattach :
      (tryGrabClosest ⟨4, 0.5, 4⟩ (handleTargetMove initSim ⟨4, 0.5, 4⟩)).attachedBlockId =
        some 1 := by
    rw [tryGrabClosest]
    dsimp only
    rw [handleTargetMove_blocks, show initSim.blocks = initBlocks from rfl,
      closestBlock_at_block1]
    rfl
  have hmodeS : (applyOps [Op.drag ⟨4, 0.5, 4⟩, Op.toggleGripper] initSim).mode =
      Mode.MANUAL := by
    rw [hstep, hgrab, tryGrabClosest_mode, handleTargetMove_mode, hmode0]
  refine ⟨?_, hmodeS, ?_⟩
  · rw [hstep, hgrab, hattach]
  · show (pressAutoPick (applyOps [Op.drag ⟨4, 0.5, 4⟩, Op.toggleGripper] initSim)).mode =
      Mode.AUTO_PICK
    rw [pressAutoPick, if_pos hmodeS]

/-- Replay step on an empty program: exit to manual, touch nothing else. -/
lemma replaySection_empty (delta : ℝ) (P : Sim)
    (hm : P.mode = Mode.REPLAY) (hempty : P.waypoints = []) :
    replaySection delta P = { P with mode := Mode.MANUAL } := by
  rw [replaySection, if_pos hm, if_pos (by rw [hempty]; rfl)]

/-- Replay step that reaches the current waypoint: the index advances to
`(index + 1) % length`, the mode stays `REPLAY`, the program is unchanged. -/
lemma replaySection_reach (delta : ℝ) (P : Sim) (wp : Waypoint)
    (hm : P.mode = Mode.REPLAY)
    (hget : P.waypoints.get? P.replayIndex = some wp)
    (hdist : vdist P.ikTarget wp.pos < 0.1) :
    (replaySection delta P).replayIndex = (P.replayIndex + 1) % P.waypoints.length ∧
    (replaySection delta P).mode = Mode.REPLAY ∧
    (replaySection delta P).waypoints = P.waypoints := by
  have hlen0 : ¬ P.waypoints.length = 0 := by
    intro hl
    rw [List.length_eq_zero] at hl
    rw [hl] at hget
    simp at hget
  rw [replaySection, if_pos hm, if_neg hlen0, hget]
  dsimp only
  rw [if_pos hdist]
  refine ⟨rfl, ?_, ?_⟩
  · split
    · split <;> simp [hm]
    · simp [hm]
  · split
    · split <;> simp
    · simp

/-- Replay step that has not yet reached the current waypoint: the index, the
mode and the program are unchanged. -/
lemma replaySection_noreach (delta : ℝ) (P : Sim) (wp : Waypoint)
    (hm : P.mode = Mode.REPLAY)
    (hget : P.waypoints.get? P.replayIndex = some wp)
    (hdist : ¬ vdist P.ikTarget wp.pos < 0.1) :
    (replaySection delta P).replayIndex = P.replayIndex ∧
    (replaySection delta P).mode = Mode.REPLAY ∧
    (replaySection delta P).waypoints = P.waypoints := by
  have hlen0 : ¬ P.waypoints.length = 0 := by
    intro hl
    rw [List.length_eq_zero] at hl
    rw [hl] at hget
    simp at hget
  rw [replaySection, if_pos hm, if_neg hlen0, hget]
  dsimp only
  rw [if_neg hdist]
  exact ⟨by simp, by simp [hm], by simp⟩

/-- CLAIM C5: during replay, reaching the current waypoint within the `0.1`
threshold advances the index to `(index + 1) % k` (staying in replay mode
indefinitely, wrapping from `k - 1` to `0`); not reaching it leaves the index
unchanged; a replay tick on an empty program is a no-op apart from immediately
exiting back to manual mode; and pressing PLAY with an empty program does
nothing. -/
theorem replay_visits_in_order (s : Sim) (delta : ℝ) (hm : s.mode = Mode.REPLAY) :
    (s.waypoints = [] →
      (frame delta s).mode = Mode.MANUAL ∧
      (frame delta s).ikTarget = s.ikTarget ∧
      (frame delta s).replayIndex = s.replayIndex ∧
      (frame delta s).waypoints = s.waypoints ∧
      (frame delta s).isGripping = s.isGripping ∧
      (frame delta s).attachedBlockId = s.attachedBlockId) ∧
    (∀ wp, s.waypoints.get? s.replayIndex = some wp →
      vdist s.ikTarget wp.pos < 0.1 →
      (frame delta s).replayIndex = (s.replayIndex + 1) % s.waypoints.length ∧
      (frame delta s).mode = Mode.REPLAY) ∧
    (∀ wp, s.waypoints.get? s.replayIndex = some wp →
      ¬ vdist s.ikTarget wp.pos < 0.1 →
      (frame delta s).replayIndex = s.replayIndex ∧
      (frame delta s).mode = Mode.REPLAY) ∧
    (∀ wp, s.waypoints.get? s.replayIndex = some wp →
      vdist s.ikTarget wp.pos < 0.1 →
      s.replayIndex + 1 = s.waypoints.length →
      (frame delta s).replayIndex = 0) ∧
    (s.waypoints = [] → toggleReplay s = s) := by
  set P : Sim :=
    { telemetrySection delta (smoothStep s) { s with smoothAngles := smoothStep s } with
      prevAngles := smoothStep s } with hPdef
  have hPmode : P.mode = s.mode := by rw [hPdef]; simp
  have hPik : P.ikTarget = s.ikTarget := by rw [hPdef]; simp
  have hPwp : P.waypoints = s.waypoints := by rw [hPdef]; simp
  have hPri : P.replayIndex = s.replayIndex := by rw [hPdef]; simp
  have hPg : P.isGripping = s.isGripping := by rw [hPdef]; simp
  have hPa : P.attachedBlockId = s.attachedBlockId := by rw [hPdef]; simp
  have hPrepl : P.mode = Mode.REPLAY := hPmode.trans hm
  have hframe : frame delta s =
      blocksSection s.attachedBlockId ⟨s.ikTarget.x, s.ikTarget.y - 0.75, s.ikTarget.z⟩
        (replaySection delta P) := by
    rw [frame_decomp, ← hPdef,
      autoSection_not_auto delta P (by rw [hPrepl]; intro hc; exact Mode.noConfusion hc)]
  refine ⟨?_, ?_, ?_, ?_, ?_⟩
  · intro hempty
    have hrepl : replaySection delta P = { P with mode := Mode.MANUAL } :=
      replaySection_empty delta P hPrepl (hPwp.trans hempty)
    rw [hframe, hrepl]
    exact ⟨by simp, by simp [hPik], by simp [hPri], by simp [hPwp], by simp [hPg],
      by simp [hPa]⟩
  · intro wp hget hdist
    have hre := replaySection_reach delta P wp hPrepl
      (by rw [hPwp, hPri]; exact hget) (by rw [hPik]; exact hdist)
    constructor
    · rw [hframe, blocksSection_replayIndex, hre.1, hPri, hPwp]
    · rw [hframe, blocksSection_mode, hre.2.1]
  · intro wp hget hdist
    have hre := replaySection_noreach delta P wp hPrepl
      (by rw [hPwp, hPri]; exact hget) (by rw [hPik]; exact hdist)
    constructor
    · rw [hframe, blocksSection_replayIndex, hre.1, hPri]
    · rw [hframe, blocksSection_mode, hre.2.1]
  · intro wp hget hdist hwrap
    have hre := replaySection_reach delta P wp hPrepl
      (by rw [hPwp, hPri]; exact hget) (by rw [hPik]; exact hdist)
    rw [hframe, blocksSection_replayIndex, hre.1, hPri, hPwp, hwrap, Nat.mod_self]
  · intro hempty
    rw [toggleReplay, if_pos (by rw [hempty]; rfl)]

/-- A two-waypoint replay state sitting exactly on the first waypoint, for the
claim C5 witness. -/
noncomputable def replayDemo : Sim :=
  { initSim with
    mode := Mode.REPLAY
    waypoints := [⟨⟨2, 2, 2⟩, false⟩, ⟨⟨0, 2, 2⟩, false⟩]
    replayIndex := 0 }

/-- Witness for claim C5: on `replayDemo` the target coincides with waypoint 0,
so one frame advances the replay index to `(0 + 1) % 2 = 1` and stays in
replay mode. -/
theorem replay_visits_in_order_witness :
    (replayDemo.mode = Mode.REPLAY ∧
      replayDemo.waypoints.get? replayDemo.replayIndex = some ⟨⟨2, 2, 2⟩, false⟩ ∧
      vdist replayDemo.ikTarget (⟨2, 2, 2⟩ : V3) < 0.1) ∧
    ((frame 1 replayDemo).replayIndex =
        (replayDemo.replayIndex + 1) % replayDemo.waypoints.length ∧
      (frame 1 replayDemo).mode = Mode.REPLAY) := by
  have hget : replayDemo.waypoints.get? replayDemo.replayIndex =
      some ⟨⟨2, 2, 2⟩, false⟩ := rfl
  have hdist : vdist replayDemo.ikTarget (⟨2, 2, 2⟩ : V3) < 0.1 := by
    have h0 : vdist replayDemo.ikTarget (⟨2, 2, 2⟩ : V3) = 0 := by
      simp [replayDemo, initSim, vdist, vsub, vlen]
    rw [h0]; norm_num
  exact ⟨⟨rfl, hget, hdist⟩,
    (replay_visits_in_order replayDemo 1 rfl).2.1 ⟨⟨2, 2, 2⟩, false⟩ hget hdist⟩

/-- The grip-consistency invariant: an attached block implies the grip flag. -/
def gripConsistent (s : Sim) : Prop :=
  s.attachedBlockId = none ∨ s.isGripping = true

/-- Grabbing always sets the grip flag, so consistency holds afterwards. -/
lemma grip_tryGrab (pos : V3) (s : Sim) : gripConsistent (tryGrabClosest pos s) :=
  Or.inr rfl

/-- The gripper toggle preserves grip consistency. -/
lemma grip_toggleGripper (s : Sim) (_h : gripConsistent s) :
    gripConsistent (toggleGripper s) := by
  rw [toggleGripper]
  split
  · exact Or.inl rfl
  · exact grip_tryGrab _ _

/-- The AUTO PICK section preserves grip consistency: `DESCEND` attaches and
grips together, `LOWER_TO_DROP` releases both together, all other branches
leave both fields alone. -/
lemma grip_auto (delta : ℝ) (s : Sim) (h : gripConsistent s) :
    gripConsistent (autoSection delta s) := by
  rw [autoSection]
  by_cases hm : s.mode = Mode.AUTO_PICK
  · rw [if_pos hm]
    cases hph : s.autoPhase
    · exact h
    · dsimp only
      split <;> simpa [gripConsistent] using h
    · dsimp only
      split
      · simp [gripConsistent]
      · simpa [gripConsistent] using h
    · dsimp only
      split <;> simpa [gripConsistent] using h
    · dsimp only
      split <;> simpa [gripConsistent] using h
    · dsimp only
      split
      · simp [gripConsistent]
      · simpa [gripConsistent] using h
    · dsimp only
      split <;> simpa [gripConsistent] using h
  · rw [if_neg hm]
    exact h

/-- The REPLAY section preserves grip consistency: engaging goes through
`tryGrabClosest` (grip set), disengaging clears both fields. -/
lemma grip_replay (delta : ℝ) (s : Sim) (h : gripConsistent s) :
    gripConsistent (replaySection delta s) := by
  rw [replaySection]
  by_cases hm : s.mode = Mode.REPLAY
  · rw [if_pos hm]
    by_cases hlen : s.waypoints.length = 0
    · rw [if_pos hlen]
      simpa [gripConsistent] using h
    · rw [if_neg hlen]
      cases hget : s.waypoints.get? s.replayIndex
      · exact h
      · dsimp only
        split
        · split
          · split
            · simp [gripConsistent]
            · simp [gripConsistent]
          · simpa [gripConsistent] using h
        · simpa [gripConsistent] using h
  · rw [if_neg hm]
    exact h

/-- One frame preserves grip consistency. -/
lemma grip_frame (delta : ℝ) (s : Sim) (h : gripConsistent s) :
    gripConsistent (frame delta s) := by
  rw [frame_decomp]
  have hP : gripConsistent
      { telemetrySection delta (smoothStep s) { s with smoothAngles := smoothStep s } with
        prevAngles := smoothStep s } := by
    simpa [gripConsistent] using h
  have h2 := grip_replay delta _ (grip_auto delta _ hP)
  simpa [gripConsistent] using h2

/-- Every operation preserves grip consistency. -/
lemma grip_applyOp (s : Sim) (o : Op) (h : gripConsistent s) :
    gripConsistent (applyOp s o) := by
  cases o with
  | frame delta => exact grip_frame delta s h
  | toggleGripper => exact grip_toggleGripper s h
  | pressAutoPick =>
      rw [applyOp, pressAutoPick]
      split
      · simpa [gripConsistent] using h
      · exact h
  | recordWaypoint =>
      rw [applyOp, recordWaypoint]
      split
      · simpa [gripConsistent] using h
      · exact h
  | toggleReplay =>
      rw [applyOp, toggleReplay]
      split
      · exact h
      · split
        · simpa [gripConsistent] using h
        · simpa [gripConsistent] using h
  | reset => exact Or.inl rfl
  | drag p =>
      rw [applyOp, dragTarget]
      split
      · simpa [gripConsistent] using h
      · exact h

/-- Blocks far from the initial target: block 1 at distance `√10.25 > 1.5`. -/
lemma block1_out_of_reach : ¬ vdist (⟨2, 2, 2⟩ : V3) (⟨4, 0.5, 4⟩ : V3) < 1.5 := by
  rw [vdist, vsub, vlen]
  dsimp only
  rw [show ((2 : ℝ) - 4) * ((2 : ℝ) - 4) + ((2 : ℝ) - 0.5) * ((2 : ℝ) - 0.5) +
      ((2 : ℝ) - 4) * ((2 : ℝ) - 4) = 10.25 by norm_num]
  exact not_lt.mpr ((Real.le_sqrt (by norm_num) (by norm_num)).mpr (by norm_num))

/-- Blocks far from the initial target: block 2 at distance `√22.25 > 1.5`. -/
lemma block2_out_of_reach : ¬ vdist (⟨2, 2, 2⟩ : V3) (⟨4, 0.5, -2⟩ : V3) < 1.5 := by
  rw [vdist, vsub, vlen]
  dsimp only
  rw [show ((2 : ℝ) - 4) * ((2 : ℝ) - 4) + ((2 : ℝ) - 0.5) * ((2 : ℝ) - 0.5) +
      ((2 : ℝ) - -2) * ((2 : ℝ) - -2) = 22.25 by norm_num]
  exact not_lt.mpr ((Real.le_sqrt (by norm_num) (by norm_num)).mpr (by norm_num))

/-- From the initial target no block is within the capture radius. -/
lemma closestBlock_none : closestBlock ⟨2, 2, 2⟩ initBlocks = none := by
  rw [closestBlock, initBlocks]
  dsimp only [List.foldl_cons, List.foldl_nil]
  rw [if_neg block1_out_of_reach]
  dsimp only
  rw [if_neg block2_out_of_reach]

/-- CLAIM C10: starting from the initial state, every sequence of operations
keeps the invariant "an attached block implies the grip flag is set" (a state
with an attached block but released gripper is unreachable), while the
converse — an empty grasp, grip set with nothing attached — is reachable, e.g.
by toggling the gripper away from any block. -/
theorem attached_implies_gripping (ops : List Op) :
    gripConsistent (applyOps ops initSim) ∧
    ∃ ops2 : List Op,
      (applyOps ops2 initSim).isGripping = true ∧
      (applyOps ops2 initSim).attachedBlockId = none := by
  constructor
  · have hfold : ∀ (l : List Op) (s : Sim), gripConsistent s →
        gripConsistent (List.foldl applyOp s l) := by
      intro l
      induction l with
      | nil => intro s hs; exact hs
      | cons o rest ih =>
          intro s hs
          exact ih _ (grip_applyOp s o hs)
    exact hfold ops initSim (Or.inl rfl)
  · refine ⟨[Op.toggleGripper], ?_, ?_⟩
    · show (toggleGripper initSim).isGripping = true
      rw [toggleGripper, if_neg (by simp [initSim, truthy])]
      rfl
    · show (toggleGripper initSim).attachedBlockId = none
      rw [toggleGripper, if_neg (by simp [initSim, truthy])]
      rw [tryGrabClosest]
      dsimp only
      rw [show initSim.ikTarget = (⟨2, 2, 2⟩ : V3) from rfl,
        show initSim.blocks = initBlocks from rfl, closestBlock_none]
      rfl

/-- The number of blocks the renderer would display as attached
(`attachedId === data.id` per block). -/
noncomputable def attachedCount (s : Sim) : ℕ :=
  (s.blocks.filter (fun b => s.attachedBlockId == some b.id)).length

/-- The block-identity invariant: the two blocks keep their ids 1 and 2. -/
def idsOK (s : Sim) : Prop := s.blocks.map BlockSt.id = [1, 2]

/-- A block frame never changes a block's identity. -/
lemma blockFrame_id (a : Option ℕ) (t : V3) (b : BlockSt) :
    (blockFrame a t b).id = b.id := by
  rw [blockFrame]
  split
  · rfl
  · dsimp only
    split <;> split <;> rfl

/-- The blocks section preserves the list of block ids. -/
lemma blocksSection_ids (a : Option ℕ) (t : V3) (s : Sim) :
    ((blocksSection a t s).blocks).map BlockSt.id = s.blocks.map BlockSt.id := by
  show (s.blocks.map (blockFrame a t)).map BlockSt.id = _
  rw [List.map_map]
  exact List.map_congr_left (fun b _ => blockFrame_id a t b)

/-- The AUTO PICK section never touches the blocks. -/
lemma autoSection_blocks (delta : ℝ) (s : Sim) :
    (autoSection delta s).blocks = s.blocks := by
  rw [autoSection]
  by_cases hm : s.mode = Mode.AUTO_PICK
  · rw [if_pos hm]
    cases hph : s.autoPhase
    · rfl
    all_goals (dsimp only; split <;> simp)
  · rw [if_neg hm]

/-- The REPLAY section never touches the blocks. -/
lemma replaySection_blocks (delta : ℝ) (s : Sim) :
    (replaySection delta s).blocks = s.blocks := by
  rw [replaySection]
  by_cases hm : s.mode = Mode.REPLAY
  · rw [if_pos hm]
    by_cases hlen : s.waypoints.length = 0
    · rw [if_pos hlen]
    · rw [if_neg hlen]
      cases hget : s.waypoints.get? s.replayIndex
      · rfl
      · dsimp only
        split
        · split
          · split <;> simp
          · simp
        · simp
  · rw [if_neg hm]

/-- One frame preserves the block ids. -/
lemma frame_ids (delta : ℝ) (s : Sim) :
    ((frame delta s).blocks).map BlockSt.id = s.blocks.map BlockSt.id := by
  rw [frame_decomp, blocksSection_ids, replaySection_blocks, autoSection_blocks]
  simp

/-- Every operation preserves the block-identity invariant. -/
lemma idsOK_applyOp (s : Sim) (o : Op) (h : idsOK s) : idsOK (applyOp s o) := by
  cases o with
  | frame delta =>
      show (frame delta s).blocks.map BlockSt.id = [1, 2]
      rw [frame_ids]
      exact h
  | toggleGripper =>
      show (toggleGripper s).blocks.map BlockSt.id = [1, 2]
      rw [toggleGripper]
      split
      · exact h
      · rw [tryGrabClosest_blocks]
        exact h
  | pressAutoPick =>
      show (pressAutoPick s).blocks.map BlockSt.id = [1, 2]
      rw [pressAutoPick]
      split <;> exact h
  | recordWaypoint =>
      show (recordWaypoint s).blocks.map BlockSt.id = [1, 2]
      rw [recordWaypoint]
      split <;> exact h
  | toggleReplay =>
      show (toggleReplay s).blocks.map BlockSt.id = [1, 2]
      rw [toggleReplay]
      split
      · exact h
      · split <;> exact h
  | reset => rfl
  | drag p =>
      show (dragTarget s p).blocks.map BlockSt.id = [1, 2]
      rw [dragTarget]
      split
      · rw [handleTargetMove_blocks]
        exact h
      · exact h

/-- In a state with the two blocks 1 and 2, at most one of them can satisfy
the renderer's attachment test against the single optional id. -/
lemma attachedCount_le_one (s : Sim) (h : idsOK s) : attachedCount s ≤ 1 := by
  have hcnt : attachedCount s =
      List.countP (fun i => s.attachedBlockId == some i) (s.blocks.map BlockSt.id) := by
    rw [attachedCount, List.countP_map, List.countP_eq_length_filter]
    rfl
  rw [hcnt, h]
  rcases ha : s.attachedBlockId with _ | i
  · simp
  · by_cases h1 : i = 1 <;> by_cases h2 : i = 2
    · omega
    · subst h1; decide
    · subst h2; decide
    · simp [List.countP_cons, List.countP_nil, h1, h2]

/-- CLAIM C7: the attachment state is the single optional id
`attachedBlockId`, so after any sequence of operations from the initial state
at most one block is attached (at most one block passes the renderer's
`attachedId === data.id` test). -/
theorem at_most_one_attached (ops : List Op) :
    attachedCount (applyOps ops initSim) ≤ 1 := by
  have hids : idsOK (applyOps ops initSim) := by
    have hfold : ∀ (l : List Op) (s : Sim), idsOK s → idsOK (List.foldl applyOp s l) := by
      intro l
      induction l with
      | nil => intro s hs; exact hs
      | cons o rest ih =>
          intro s hs
          exact ih _ (idsOK_applyOp s o hs)
    exact hfold ops initSim rfl
  exact attachedCount_le_one _ hids

/-- CLAIM C9 counterexample: at the shoulder-pivot target `(0, 1, 0)` the
solver distance is `h = 0`, yet the solver neither reports
`Unreachable`/`Degenerate` (the result is not `null`) nor returns well-defined
angles — it evaluates the law-of-cosines divisions and produces NaN
components. -/
theorem degenerate_not_detected_counterexample :
    hIK 0 1 0 = 0 ∧
    solveIK 0 1 0 ≠ none ∧
    ¬ ∃ a : JointAngles, solveIK 0 1 0 = some ⟨a.base, some a.shoulder, some a.elbow⟩ := by
  refine ⟨hIK_shoulder_pivot, ?_, ?_⟩
  · rw [solveIK_shoulder_pivot]
    simp
  · rintro ⟨a, heq⟩
    rw [solveIK_shoulder_pivot] at heq
    simp only [Option.some.injEq, JointAnglesJS.mk.injEq] at heq
    exact Option.noConfusion heq.2.1

/-- CLAIM C9 (amended): for the degenerate target `(0, 1, 0)` with `h = 0`,
the solver does not detect the condition: the reach check `h > L2 + L3` passes,
the shoulder `acos` divides by zero and the elbow `acos` argument exceeds `1`,
so the returned record has base `atan2(0,0) = 0` and NaN (undefined) shoulder
and elbow components, rather than an `Unreachable` result. -/
theorem degenerate_returns_nan_components :
    hIK 0 1 0 = 0 ∧ solveIK 0 1 0 = some ⟨0, none, none⟩ :=
  ⟨hIK_shoulder_pivot, solveIK_shoulder_pivot⟩

end RobotSim
